import Mathlib

/-
Verification of the interoperability examples: the `MyCppClass` object,
its C bridge (`c_bridge.cpp`), and the simple C library (`mylib.c`).

Modelling conventions:
- C/C++ `int` and `int32_t` values are embedded as `Int`; arithmetic that
  can overflow is wrapped to the 32-bit two's-complement range with
  `wrap32` (the behaviour of the generated code on every mainstream
  target).
- `double` sequences are embedded as lists of exact rationals `ℚ`; the
  additions in `calculateSum` / `calculate_average` are exact.
- Opaque handles are `Option MyCppClass`: `none` is the null handle.
- Allocation success (for `new` in `create` and `malloc` in `getMessage`)
  is an explicit `Bool` parameter, since the C++ runtime decides it.
- The allocation state seen by `free` is a list of live buffers, so that
  `MyCppClass_freeString` on a null pointer is visibly a state no-op.
-/

namespace ZigGuide

/-- Reduce an integer to the 32-bit two's-complement range
`[-2147483648, 2147483647]`, as signed 32-bit machine addition does. -/
def wrap32 (x : Int) : Int :=
  (x + 2147483648) % 4294967296 - 2147483648

/-- The value `x` is representable as a signed 32-bit integer. -/
def int32Rep (x : Int) : Prop :=
  -2147483648 ≤ x ∧ x < 2147483648

instance (x : Int) : Decidable (int32Rep x) :=
  inferInstanceAs (Decidable (-2147483648 ≤ x ∧ x < 2147483648))

/-- The C++ class `MyCppClass` (MyCppClass.hpp): one `int` field `value_`
and one `std::string` field `message_`. -/
structure MyCppClass where
  value_ : Int
  message_ : String
  deriving DecidableEq

namespace MyCppClass

/-- Constructor `MyCppClass::MyCppClass(int)` (MyCppClass.cpp, lines 4-6):
stores the initial value and sets the message to "Default message". -/
def construct (initial_value : Int) : MyCppClass :=
  { value_ := initial_value, message_ := "Default message" }

/-- Method `MyCppClass::getValue` (MyCppClass.cpp, lines 12-14). -/
def getValue (o : MyCppClass) : Int :=
  o.value_

/-- Method `MyCppClass::setValue` (MyCppClass.cpp, lines 16-18). -/
def setValue (o : MyCppClass) (value : Int) : MyCppClass :=
  { o with value_ := value }

/-- Method `MyCppClass::increment` (MyCppClass.cpp, lines 20-22):
`value_++`, a 32-bit machine increment. -/
def increment (o : MyCppClass) : MyCppClass :=
  { o with value_ := wrap32 (o.value_ + 1) }

/-- Method `MyCppClass::getMessage` (MyCppClass.cpp, lines 24-26). -/
def getMessage (o : MyCppClass) : String :=
  o.message_

/-- Method `MyCppClass::setMessage` (MyCppClass.cpp, lines 28-30). -/
def setMessage (o : MyCppClass) (msg : String) : MyCppClass :=
  { o with message_ := msg }

/-- Method `MyCppClass::calculateSum` (MyCppClass.cpp, lines 32-34):
`std::accumulate(values.begin(), values.end(), 0.0)`, a left fold of
addition starting from 0. The object itself is not consulted. -/
def calculateSum (_o : MyCppClass) (values : List ℚ) : ℚ :=
  values.foldl (· + ·) 0

end MyCppClass

/-- Bridge `MyCppClass_create` (c_bridge.cpp, lines 17-24): `new` the
object, returning null if allocation fails (`allocOk` models whether the
allocation succeeds; the wrapped constructor itself cannot fault). -/
def MyCppClass_create (allocOk : Bool) (initial_value : Int) :
    Option MyCppClass :=
  if allocOk then some (MyCppClass.construct initial_value) else none

/-- Bridge `MyCppClass_destroy` (c_bridge.cpp, lines 26-30): deletes the
object when the handle is non-null; a no-op on the null handle. After
the call no live object is reachable through the handle. -/
def MyCppClass_destroy (obj : Option MyCppClass) : Option MyCppClass :=
  match obj with
  | none => none
  | some _ => none

/-- Bridge `MyCppClass_getValue` (c_bridge.cpp, lines 32-39): returns 0 on
a null handle, otherwise the object's value. -/
def MyCppClass_getValue (obj : Option MyCppClass) : Int :=
  match obj with
  | none => 0
  | some o => o.getValue

/-- Bridge `MyCppClass_setValue` (c_bridge.cpp, lines 41-48): a no-op on a
null handle. -/
def MyCppClass_setValue (obj : Option MyCppClass) (value : Int) :
    Option MyCppClass :=
  match obj with
  | none => none
  | some o => some (o.setValue value)

/-- Bridge `MyCppClass_increment` (c_bridge.cpp, lines 50-57): a no-op on
a null handle. -/
def MyCppClass_increment (obj : Option MyCppClass) : Option MyCppClass :=
  match obj with
  | none => none
  | some o => some o.increment

/-- Bridge `MyCppClass_getMessage` (c_bridge.cpp, lines 59-71): null on a
null handle; otherwise a `malloc`-ed copy of the message, or null when the
allocation fails (`allocOk`). -/
def MyCppClass_getMessage (allocOk : Bool) (obj : Option MyCppClass) :
    Option String :=
  match obj with
  | none => none
  | some o => if allocOk then some o.getMessage else none

/-- Bridge `MyCppClass_setMessage` (c_bridge.cpp, lines 73-80): a no-op
when the handle or the message pointer is null. -/
def MyCppClass_setMessage (obj : Option MyCppClass)
    (message : Option String) : Option MyCppClass :=
  match obj, message with
  | some o, some m => some (o.setMessage m)
  | _, _ => obj

/-- Bridge `MyCppClass_freeString` (c_bridge.cpp, lines 82-84): calls
`free(str)`. Per the C standard, `free` on a null pointer does nothing;
on a live buffer it removes it from the allocation state, embedded here
as the list of live buffers. -/
def MyCppClass_freeString (str : Option String) (heap : List String) :
    List String :=
  match str with
  | none => heap
  | some s => heap.erase s

/-- Bridge `MyCppClass_calculateSum` (c_bridge.cpp, lines 86-96): returns
0.0 when the handle or the values pointer is null, otherwise sums the
`count`-element array (embedded as the list of the array's elements). -/
def MyCppClass_calculateSum (obj : Option MyCppClass)
    (values : Option (List ℚ)) : ℚ :=
  match obj, values with
  | some o, some vs => o.calculateSum vs
  | _, _ => 0

/-- C library `add_numbers` (mylib.c, lines 4-6): `a + b` on `int32_t`,
i.e. the 32-bit wrapped sum. -/
def add_numbers (a b : Int) : Int :=
  wrap32 (a + b)

/-- C library `calculate_average` (mylib.c, lines 12-20): 0.0 when
`count` is 0, otherwise the running sum of the `count` elements divided
by `count`. The array with its count is embedded as a list. -/
def calculate_average (values : List ℚ) : ℚ :=
  if values.length = 0 then 0
  else (values.foldl (· + ·) 0) / (values.length : ℚ)

/- Helper lemmas. -/

theorem wrap32_eq_self {x : Int} (h : int32Rep x) : wrap32 x = x := by
  obtain ⟨h1, h2⟩ := h
  unfold wrap32
  omega

theorem int32Rep_wrap32 (x : Int) : int32Rep (wrap32 x) := by
  unfold int32Rep wrap32
  omega

theorem wrap32_wrap32_add (x k : Int) :
    wrap32 (wrap32 x + k) = wrap32 (x + k) := by
  unfold wrap32
  omega

theorem foldl_add_shift (init : ℚ) (l : List ℚ) :
    l.foldl (· + ·) init = init + l.foldl (· + ·) 0 := by
  induction l generalizing init with
  | nil => simp
  | cons a l ih =>
      simp only [List.foldl_cons]
      rw [ih (init + a), ih (0 + a)]
      ring

theorem foldl_add_eq_sum (l : List ℚ) : l.foldl (· + ·) 0 = l.sum := by
  induction l with
  | nil => simp
  | cons a l ih =>
      simp only [List.foldl_cons, List.sum_cons, zero_add]
      rw [foldl_add_shift a l, ih]

theorem increment_iterate_value (n : Nat) (o : MyCppClass)
    (h : int32Rep o.value_) :
    (MyCppClass.increment^[n] o).value_ = wrap32 (o.value_ + n) := by
  induction n generalizing o with
  | zero => simpa using (wrap32_eq_self h).symm
  | succ n ih =>
      rw [Function.iterate_succ_apply, ih o.increment (int32Rep_wrap32 _)]
      show wrap32 (wrap32 (o.value_ + 1) + n) = _
      rw [wrap32_wrap32_add]
      congr 1
      push_cast
      ring

/- Claim theorems. -/

/-- C1: every bridge function is safe on a null handle and returns its
documented sentinel: destroy(null) is a no-op, getValue(null) = 0,
getMessage(null) = null, setValue/increment/setMessage(null) are no-ops,
and calculateSum returns 0.0 when the handle or the values pointer is
null. All the bridge functions are total, so no such call crashes. -/
theorem bridge_null_handle_safe :
    MyCppClass_destroy none = none ∧
    MyCppClass_getValue none = 0 ∧
    (∀ ok : Bool, MyCppClass_getMessage ok none = none) ∧
    (∀ v : Int, MyCppClass_setValue none v = none) ∧
    MyCppClass_increment none = none ∧
    (∀ m : Option String, MyCppClass_setMessage none m = none) ∧
    (∀ vs : Option (List ℚ), MyCppClass_calculateSum none vs = 0) ∧
    (∀ obj : Option MyCppClass, MyCppClass_calculateSum obj none = 0) := by
  refine ⟨rfl, rfl, fun _ => rfl, fun _ => rfl, rfl,
    fun m => ?_, fun vs => ?_, fun obj => ?_⟩
  · cases m <;> rfl
  · cases vs <;> rfl
  · cases obj <;> rfl

/-- C2: an object constructed with initial value v reports v back:
`(construct v).getValue = v`, and whenever the bridge `create` returns a
non-null handle, `getValue` on that handle is v. -/
theorem create_getValue_roundtrip :
    (∀ v : Int, (MyCppClass.construct v).getValue = v) ∧
    (∀ (ok : Bool) (v : Int) (h : MyCppClass),
      MyCppClass_create ok v = some h → h.getValue = v) := by
  refine ⟨fun _ => rfl, fun ok v h hc => ?_⟩
  cases ok with
  | false => simp [MyCppClass_create] at hc
  | true =>
      simp only [MyCppClass_create, if_pos] at hc
      simp [← Option.some_inj.mp hc, MyCppClass.getValue,
        MyCppClass.construct]

/-- Witness for C2 at ok = true, v = 7. -/
theorem create_getValue_roundtrip_witness :
    (MyCppClass.construct 7).getValue = 7 :=
  create_getValue_roundtrip.2 true 7 (MyCppClass.construct 7) rfl

/-- C3: a freshly constructed object's message is exactly
"Default message", before any setMessage. -/
theorem construct_default_message :
    ∀ v : Int, (MyCppClass.construct v).getMessage = "Default message" :=
  fun _ => rfl

/-- C4 counterexample: the claim "increment applied n times increases the
value by exactly n" fails at the 32-bit boundary: one increment of an
object holding 2147483647 yields -2147483648, not 2147483648. -/
theorem increment_overflow_counterexample :
    ¬ ((MyCppClass.increment^[1] (MyCppClass.construct 2147483647)).getValue
      = (MyCppClass.construct 2147483647).getValue + 1) := by
  decide

/-- C4 (amended): applying increment n times yields the 32-bit wrapped
value `wrap32 (v + n)`; in particular the value increases by exactly n
whenever `v + n` still fits in a signed 32-bit integer. -/
theorem increment_iterate_adds (o : MyCppClass) (n : Nat)
    (h : int32Rep o.value_) :
    (MyCppClass.increment^[n] o).getValue = wrap32 (o.getValue + n) ∧
    (o.getValue + n < 2147483648 →
      (MyCppClass.increment^[n] o).getValue = o.getValue + n) := by
  have hmain := increment_iterate_value n o h
  simp only [MyCppClass.getValue]
  refine ⟨hmain, fun hlt => ?_⟩
  rw [hmain]
  have h1 : -2147483648 ≤ o.value_ := h.1
  exact wrap32_eq_self ⟨by omega, hlt⟩

/-- Witness for C4 at o = construct 5, n = 3. -/
theorem increment_iterate_adds_witness :
    (MyCppClass.increment^[3] (MyCppClass.construct 5)).getValue
      = (MyCppClass.construct 5).getValue + (3 : Nat) :=
  (increment_iterate_adds (MyCppClass.construct 5) 3 (by decide)).2
    (by decide)

/-- C5: setMessage followed by getMessage is a round trip: after
`setMessage t`, `getMessage` returns exactly t, for every text t
including the empty text. -/
theorem setMessage_getMessage_roundtrip (o : MyCppClass) (t : String) :
    (o.setMessage t).getMessage = t :=
  rfl

/-- C6: calculateSum is the additive fold: the sum of the empty sequence
is 0, the sum of [a] is a, and the sum of a concatenation is the sum of
the sums. -/
theorem calculateSum_additive :
    (∀ o : MyCppClass, o.calculateSum [] = 0) ∧
    (∀ (o : MyCppClass) (a : ℚ), o.calculateSum [a] = a) ∧
    (∀ (o : MyCppClass) (A B : List ℚ),
      o.calculateSum (A ++ B) = o.calculateSum A + o.calculateSum B) := by
  refine ⟨fun _ => rfl, fun o a => by simp [MyCppClass.calculateSum],
    fun o A B => ?_⟩
  simp only [MyCppClass.calculateSum, List.foldl_append]
  rw [foldl_add_shift (A.foldl (· + ·) 0) B]

/-- C7: calculate_average returns 0 on the empty input (count 0), returns
x on [x], and is invariant under any permutation of the input values. -/
theorem calculate_average_props :
    calculate_average [] = 0 ∧
    (∀ x : ℚ, calculate_average [x] = x) ∧
    (∀ A B : List ℚ, A.Perm B → calculate_average A = calculate_average B) := by
  refine ⟨rfl, fun x => by simp [calculate_average], fun A B hp => ?_⟩
  simp only [calculate_average, foldl_add_eq_sum, hp.length_eq, hp.sum_eq]

/-- Witness for C7: the average of [1, 2] equals the average of the
reordering [2, 1]. -/
theorem calculate_average_props_witness :
    calculate_average [(1 : ℚ), 2] = calculate_average [2, 1] :=
  calculate_average_props.2.2 [(1 : ℚ), 2] [2, 1] (List.Perm.swap 2 1 [])

/-- C8 counterexample: `add_numbers` on `int32_t` wraps, so
`add_numbers 2147483647 2147483647` is -2, not the mathematical sum
4294967294. -/
theorem add_numbers_overflow_counterexample :
    add_numbers 2147483647 2147483647 ≠ 2147483647 + 2147483647 := by
  decide

/-- C8 (amended): add_numbers is total and returns the 32-bit wrapped sum
of its arguments, which equals a + b whenever that sum is representable
in 32 bits; it is commutative for all inputs, and 0 is an identity on
every 32-bit representable a. -/
theorem add_numbers_props :
    (∀ a b : Int, add_numbers a b = add_numbers b a) ∧
    (∀ a : Int, int32Rep a → add_numbers a 0 = a) ∧
    (∀ a b : Int, int32Rep (a + b) → add_numbers a b = a + b) := by
  refine ⟨fun a b => by rw [add_numbers, add_numbers, Int.add_comm],
    fun a ha => ?_, fun a b hab => wrap32_eq_self hab⟩
  simpa [add_numbers] using wrap32_eq_self ha

/-- Witness for C8 at a = 3, b = 4. -/
theorem add_numbers_props_witness :
    add_numbers 3 4 = 3 + 4 ∧ add_numbers 3 0 = 3 :=
  ⟨add_numbers_props.2.2 3 4 (by decide), add_numbers_props.2.1 3 (by decide)⟩

/-- C9: each mutator touches only its own field: setValue and increment
leave the message unchanged, and setMessage leaves the value unchanged. -/
theorem mutator_frame (o : MyCppClass) (v : Int) (t : String) :
    (o.setValue v).getMessage = o.getMessage ∧
    o.increment.getMessage = o.getMessage ∧
    (o.setMessage t).getValue = o.getValue :=
  ⟨rfl, rfl, rfl⟩

/-- C10: freeString on a null pointer is a safe no-op that leaves the
allocation state unchanged; in particular the null buffer that getMessage
returns when its allocation fails can be passed to freeString without
harm. -/
theorem freeString_null_noop :
    (∀ heap : List String, MyCppClass_freeString none heap = heap) ∧
    (∀ (obj : Option MyCppClass) (heap : List String),
      MyCppClass_freeString (MyCppClass_getMessage false obj) heap = heap) := by
  refine ⟨fun _ => rfl, fun obj heap => ?_⟩
  cases obj <;> rfl

end ZigGuide
